import Mathlib

/-!
Shallow embedding of the two Spack package recipes of this repository:

* `var/spack/repos/builtin/packages/kokkos/package.py` — the `Kokkos`
  package class: its variant declarations, its `conflicts` declarations,
  its version table, and its `cmake_args` translation function.
* `var/spack/repos/builtin/packages/py-pycparser/package.py` — the
  `PyPycparser` package class: pure metadata.

Machine-level details (Python dictionaries, the Spack `Spec` object) are
modelled explicitly: a finalized variant selection is a record assigning
every declared variant a value, and `spec.variants[name].value` dictionary
access is additionally modelled by an association-list lookup returning
`Except` so that the absence of failure paths is provable rather than
assumed.
-/

/-- A finalized selection of the variants declared by the `Kokkos` package:
one `Bool` per boolean `variant(...)` declaration (the recipe declares
`debug` twice with the same name and default, which yields a single
variant), and one `String` for each of the two enum variants
(`host_arch`, `gpu_arch`). -/
structure Spec where
  debug : Bool
  serial : Bool
  pthreads : Bool
  qthreads : Bool
  cuda : Bool
  openmp : Bool
  pic : Bool
  aggressive_vectorization : Bool
  disable_profiling : Bool
  disable_dualview_modify_check : Bool
  enable_profile_load_print : Bool
  compiler_warnings : Bool
  disable_deprecated_code : Bool
  enable_eti : Bool
  force_uvm : Bool
  use_ldg : Bool
  rdc : Bool
  enable_lambda : Bool
  host_arch : String
  gpu_arch : String
deriving DecidableEq, Repr

/-- `gpu_values` tuple of the Kokkos recipe (the eleven GPU architectures). -/
def gpu_values : List String :=
  ["Kepler30", "Kepler32", "Kepler35", "Kepler37",
   "Maxwell50", "Maxwell52", "Maxwell53",
   "Pascal60", "Pascal61",
   "Volta70", "Volta72"]

/-- `cuda_options` tuple of the Kokkos recipe. -/
def cuda_options : List String :=
  ["force_uvm", "use_ldg", "rdc", "enable_lambda"]

/-- The `values=` tuple of the `host_arch` variant declaration. -/
def host_arch_values : List String :=
  ["AMDAVX", "ARMv80", "ARMv81", "ARMv8-ThunderX",
   "Power7", "Power8", "Power9",
   "WSM", "SNB", "HSW", "BDW", "SKX", "KNC", "KNL"]

/-- The `default=` of the `host_arch` variant declaration. -/
def host_arch_default : String := "none"

/-- The `default=` of the `gpu_arch` variant declaration. -/
def gpu_arch_default : String := "none"

/-- The names of all boolean variants declared by the Kokkos recipe
(the duplicate `debug` declaration contributes one name). -/
def declared_bool_variants : List String :=
  ["debug", "serial", "pthreads", "qthreads", "cuda", "openmp", "pic",
   "aggressive_vectorization", "disable_profiling",
   "disable_dualview_modify_check", "enable_profile_load_print",
   "compiler_warnings", "disable_deprecated_code", "enable_eti",
   "force_uvm", "use_ldg", "rdc", "enable_lambda"]

/-- The names of the enum (string-valued) variants of the Kokkos recipe. -/
def declared_enum_variants : List String := ["host_arch", "gpu_arch"]

/-- The value of a named boolean variant in a finalized selection;
models the Spack membership test `+name in spec` membership test.  A name that is not
a declared boolean variant is never "on". -/
def boolVariantVal (s : Spec) (name : String) : Bool :=
  if name = "debug" then s.debug
  else if name = "serial" then s.serial
  else if name = "pthreads" then s.pthreads
  else if name = "qthreads" then s.qthreads
  else if name = "cuda" then s.cuda
  else if name = "openmp" then s.openmp
  else if name = "pic" then s.pic
  else if name = "aggressive_vectorization" then s.aggressive_vectorization
  else if name = "disable_profiling" then s.disable_profiling
  else if name = "disable_dualview_modify_check" then s.disable_dualview_modify_check
  else if name = "enable_profile_load_print" then s.enable_profile_load_print
  else if name = "compiler_warnings" then s.compiler_warnings
  else if name = "disable_deprecated_code" then s.disable_deprecated_code
  else if name = "enable_eti" then s.enable_eti
  else if name = "force_uvm" then s.force_uvm
  else if name = "use_ldg" then s.use_ldg
  else if name = "rdc" then s.rdc
  else if name = "enable_lambda" then s.enable_lambda
  else false

/-- The `arch_args` list built inside `Kokkos.cmake_args`: the host
architecture (when not `none`) followed by the GPU architecture (when
not `none`). -/
def arch_args (s : Spec) : List String :=
  (if s.host_arch ≠ "none" then [s.host_arch] else [])
    ++ (if s.gpu_arch ≠ "none" then [s.gpu_arch] else [])

/-- `Kokkos.cmake_args`, transcribed statement by statement: each
`if +name in spec: args.append(flag)` becomes one conditional singleton
appended in source order; the architecture block builds `arch_args` from
`host_arch` then `gpu_arch` and, when nonempty, appends the single flag
`-DKOKKOS_ARCH=` followed by the comma-join of `arch_args`. -/
def cmake_args (s : Spec) : List String :=
  (if s.serial then ["-DKOKKOS_ENABLE_SERIAL=ON"] else [])
    ++ (if s.openmp then ["-DKOKKOS_ENABLE_OPENMP=ON"] else [])
    ++ (if s.qthreads then ["-DKOKKOS_ENABLE_QTHREADS=ON"] else [])
    ++ (if s.pthreads then ["-DKOKKOS_ENABLE_PTHREAD=ON"] else [])
    ++ (if s.cuda then ["-DKOKKOS_ENABLE_CUDA=ON"] else [])
    ++ (if s.pic then ["-DBUILD_SHARED_LIBS=ON"] else [])
    ++ (if s.debug then ["-DKOKKOS_ENABLE_DEBUG=ON"] else [])
    ++ (if (arch_args s).isEmpty then []
        else ["-DKOKKOS_ARCH=" ++ String.intercalate "," (arch_args s)])
    ++ (if s.force_uvm then ["-DKOKKOS_ENABLE_CUDA_UVM=ON"] else [])
    ++ (if s.use_ldg then ["-DKOKKOS_ENABLE_CUDA_LDG_INTRINSIC=ON"] else [])
    ++ (if s.enable_lambda then ["-DKOKKOS_ENABLE_CUDA_LAMBDA=ON"] else [])
    ++ (if s.aggressive_vectorization then ["-DKOKKOS_ENABLE_AGGRESSIVE_VECTORIZATION=ON"] else [])
    ++ (if s.disable_profiling then ["-DKOKKOS_ENABLE_PROFILING=OFF"] else [])
    ++ (if s.disable_dualview_modify_check then ["-DKOKKOS_ENABLE_DEBUG_DUALVIEW_MODIFY_CHECK=OFF"] else [])
    ++ (if s.enable_profile_load_print then ["-DKOKKOS_ENABLE_PROFILING_LOAD_PRINT=OFF"] else [])
    ++ (if s.compiler_warnings then ["-DKOKKOS_ENABLE_COMPILER_WARNINGS=ON"] else [])
    ++ (if s.disable_deprecated_code then ["-DKOKKOS_ENABLE_DEPRECATED_CODE=OFF"] else [])
    ++ (if s.enable_eti then ["-DKOKKOS_ENABLE_EXPLICIT_INSTANTIATION=ON"] else [])

/-- A version identifier, as the list of its numeric components
(Spack compares release components numerically, so `2.04.11` is
`[2, 4, 11]`). -/
def Version : Type := List Nat
deriving DecidableEq

/-- The numeric releases declared by `version(...)` in the Kokkos recipe,
in declaration order.  The moving `develop` branch pointer is declared as
well but has no numeric components and is not needed below. -/
def kokkos_versions : List Version :=
  [[2, 8, 0], [2, 7, 24], [2, 7, 0], [2, 5, 0], [2, 4, 11], [2, 4, 4],
   [2, 4, 0], [2, 3, 13], [2, 3, 5], [2, 3, 0], [2, 2, 15], [2, 2, 7]]

/-- Numeric componentwise (lexicographic) comparison of version
identifiers; a missing trailing component counts as smaller. -/
def verLE : List Nat → List Nat → Bool
  | [], _ => true
  | _ :: _, [] => false
  | a :: as, b :: bs => a < b || (a == b && verLE as bs)

/-- The first (anonymous) argument of a `conflicts(...)` declaration: the
constraint whose satisfaction triggers the conflict. -/
inductive CSpec where
  /-- `+name`: the named boolean variant is enabled. -/
  | plus (name : String)
  /-- `gpu_arch=V`: the `gpu_arch` enum variant has value `V`. -/
  | gpuArchIs (v : String)
deriving DecidableEq, Repr

/-- The `when=` argument of a `conflicts(...)` declaration. -/
inductive CWhen where
  /-- No `when=` argument: the conflict applies unconditionally. -/
  | always
  /-- `when=@:X`: versions up to and including `X`. -/
  | atMost (v : List Nat)
  /-- `when=@X:Y`: versions between `X` and `Y` inclusive. -/
  | between (lo hi : List Nat)
  /-- `when=~cuda`: the `cuda` variant is disabled. -/
  | noCuda
deriving DecidableEq, Repr

/-- One `conflicts(trigger, when=whenCond, msg=msg)` declaration. -/
structure Conflict where
  trigger : CSpec
  whenCond : CWhen
  msg : Option String
deriving DecidableEq, Repr

/-- The full list of `conflicts(...)` declarations of the Kokkos recipe,
in source order; the `for p in gpu_values:` loop contributes one
declaration per GPU architecture value. -/
def kokkos_conflicts : List Conflict :=
  [⟨.plus "aggressive_vectorization", .atMost [2, 0, 99], none⟩,
   ⟨.plus "disable_profiling", .atMost [2, 0, 99], none⟩,
   ⟨.plus "disable_dualview_modify_check", .atMost [2, 3, 4], none⟩,
   ⟨.plus "enable_profile_load_print", .atMost [2, 3, 4], none⟩,
   ⟨.plus "compiler_warnings", .atMost [2, 3, 14], none⟩,
   ⟨.plus "disable_deprecated_code", .atMost [2, 5, 99], none⟩,
   ⟨.plus "enable_eti", .atMost [2, 6, 99], none⟩]
  ++ gpu_values.map (fun p =>
       ⟨.gpuArchIs p, .noCuda,
        some "Must specify CUDA backend to use a GPU architecture."⟩)
  ++ [⟨.plus "force_uvm", .noCuda, some "Must enable CUDA to use force_uvm."⟩,
      ⟨.plus "use_ldg", .noCuda, some "Must enable CUDA to use use_ldg."⟩,
      ⟨.plus "rdc", .noCuda, some "Must enable CUDA to use rdc."⟩,
      ⟨.plus "enable_lambda", .noCuda, some "Must enable CUDA to use enable_lambda."⟩,
      ⟨.gpuArchIs "Volta70", .atMost [2, 5, 99], none⟩,
      ⟨.gpuArchIs "Volta72", .atMost [2, 5, 99], none⟩,
      ⟨.plus "cuda", .between [2, 5, 0] [2, 7, 0],
       some ("Kokkos build system has issue (#1296) when CUDA enabled"
             ++ " in version 2.5.00 through 2.7.00.")⟩]

/-- Whether a build configuration (version and variant selection)
satisfies the trigger constraint of a conflict. -/
def matchesCSpec (s : Spec) : CSpec → Bool
  | .plus n => boolVariantVal s n
  | .gpuArchIs v => s.gpu_arch == v

/-- Whether a build configuration satisfies the `when=` condition of a
conflict. -/
def matchesCWhen (ver : Version) (s : Spec) : CWhen → Bool
  | .always => true
  | .atMost v => verLE ver v
  | .between lo hi => verLE lo ver && verLE ver hi
  | .noCuda => !s.cuda

/-- A conflict declaration is violated by a configuration when the
configuration satisfies both its trigger and its `when=` condition. -/
def violates (ver : Version) (s : Spec) (c : Conflict) : Bool :=
  matchesCSpec s c.trigger && matchesCWhen ver s c.whenCond

/-- A selection assigns each enum variant either its `none` default or
a member of its declared `values=` tuple. -/
def legal_values (s : Spec) : Bool :=
  (s.host_arch == "none" || host_arch_values.contains s.host_arch)
    && (s.gpu_arch == "none" || gpu_values.contains s.gpu_arch)

/-- A pre-validated input to the translator: the enum values are legal
and no declared conflict is violated at the given version.  This is the
check the external host performs before `cmake_args` runs. -/
def pre_validated (ver : Version) (s : Spec) : Bool :=
  legal_values s && kokkos_conflicts.all (fun c => !violates ver s c)

/-- The selection in which every variant has its declared default:
`serial` is `True`, every other boolean variant `False`, and both enum
variants `none`. -/
def default_spec : Spec :=
  { debug := false, serial := true, pthreads := false, qthreads := false,
    cuda := false, openmp := false, pic := false,
    aggressive_vectorization := false, disable_profiling := false,
    disable_dualview_modify_check := false,
    enable_profile_load_print := false, compiler_warnings := false,
    disable_deprecated_code := false, enable_eti := false,
    force_uvm := false, use_ldg := false, rdc := false,
    enable_lambda := false, host_arch := "none", gpu_arch := "none" }


/-- A variant value as stored in the variant dictionary of a Spack spec:
boolean variants hold a `Bool`, enum variants a `String`. -/
inductive VValue where
  | bool (b : Bool)
  | str (v : String)
deriving DecidableEq, Repr

/-- The `spec.variants` dictionary: a finite map from variant name to
value. -/
def VarMap : Type := List (String × VValue)

/-- Models the membership test `+name in spec`: true exactly when the
named variant is present and is a boolean set to `True`; never fails. -/
def varMapHas (m : VarMap) (name : String) : Bool :=
  match m.lookup name with
  | some (.bool b) => b
  | _ => false

/-- Models the dictionary access `spec.variants[name].value` used for the
enum variants, the only operations of `cmake_args` that can fail: a
missing key is the Python `KeyError`, and a non-string value would make
the later comma-join raise a `TypeError`. -/
def getStrVariant (m : VarMap) (name : String) : Except String String :=
  match m.lookup name with
  | some (.str v) => .ok v
  | some (.bool _) => .error ("TypeError: variant " ++ name ++ " is not a string")
  | none => .error ("KeyError: " ++ name)

/-- The map assigns every declared boolean variant a boolean and every
declared enum variant a string: it is a mapping of the declared variants
to values. -/
def assignsDeclared (m : VarMap) : Bool :=
  declared_bool_variants.all (fun n =>
      match m.lookup n with
      | some (.bool _) => true
      | _ => false)
    && declared_enum_variants.all (fun n =>
      match m.lookup n with
      | some (.str _) => true
      | _ => false)

/-- The finalized selection a variant dictionary denotes, given the
values read for the two enum variants. -/
def specOfMap (m : VarMap) (host gpu : String) : Spec :=
  { debug := varMapHas m "debug", serial := varMapHas m "serial",
    pthreads := varMapHas m "pthreads", qthreads := varMapHas m "qthreads",
    cuda := varMapHas m "cuda", openmp := varMapHas m "openmp",
    pic := varMapHas m "pic",
    aggressive_vectorization := varMapHas m "aggressive_vectorization",
    disable_profiling := varMapHas m "disable_profiling",
    disable_dualview_modify_check := varMapHas m "disable_dualview_modify_check",
    enable_profile_load_print := varMapHas m "enable_profile_load_print",
    compiler_warnings := varMapHas m "compiler_warnings",
    disable_deprecated_code := varMapHas m "disable_deprecated_code",
    enable_eti := varMapHas m "enable_eti", force_uvm := varMapHas m "force_uvm",
    use_ldg := varMapHas m "use_ldg", rdc := varMapHas m "rdc",
    enable_lambda := varMapHas m "enable_lambda",
    host_arch := host, gpu_arch := gpu }

/-- `cmake_args` over the raw variant dictionary, with its two fallible
dictionary accesses made explicit.  The `+name in spec` membership
tests cannot fail, so hoisting the two enum lookups to the front (they
occur mid-function in the source) preserves both the result and the
presence or absence of an exception. -/
def cmake_argsE (m : VarMap) : Except String (List String) := do
  let host ← getStrVariant m "host_arch"
  let gpu ← getStrVariant m "gpu_arch"
  pure (cmake_args (specOfMap m host gpu))

/-- The variant dictionary holding every declared variant at its declared
default. -/
def default_var_map : VarMap :=
  [("debug", .bool false), ("serial", .bool true), ("pthreads", .bool false),
   ("qthreads", .bool false), ("cuda", .bool false), ("openmp", .bool false),
   ("pic", .bool false), ("aggressive_vectorization", .bool false),
   ("disable_profiling", .bool false),
   ("disable_dualview_modify_check", .bool false),
   ("enable_profile_load_print", .bool false),
   ("compiler_warnings", .bool false),
   ("disable_deprecated_code", .bool false), ("enable_eti", .bool false),
   ("force_uvm", .bool false), ("use_ldg", .bool false),
   ("rdc", .bool false), ("enable_lambda", .bool false),
   ("host_arch", .str "none"), ("gpu_arch", .str "none")]


/-- One `depends_on(pkg, type=dtype)` dependency edge. -/
structure DependencyEdge where
  pkg : String
  dtype : List String
deriving DecidableEq, Repr

/-- The static metadata a declarative Python-package recipe consists of. -/
structure PyPackage where
  name : String
  homepage : String
  url : String
  import_modules : List String
  versions : List (String × String)
  dependencies : List DependencyEdge
deriving DecidableEq, Repr

/-- The `PyPycparser` recipe: name, source location, import check list,
two versions with their checksums, and a single build-time dependency
edge on `py-setuptools`.  The class body contains nothing else — no
methods, so the embedding is a record with no operations. -/
def py_pycparser : PyPackage :=
  { name := "py-pycparser",
    homepage := "https://github.com/eliben/pycparser",
    url := "https://pypi.io/packages/source/p/pycparser/pycparser-2.17.tar.gz",
    import_modules := ["pycparser", "pycparser.ply"],
    versions := [("2.17", "ca98dcb50bc1276f230118f6af5a40c7"),
                 ("2.13", "e4fe1a2d341b22e25da0d22f034ef32f")],
    dependencies := [⟨"py-setuptools", ["build"]⟩] }

/-- Whether a flag is an architecture flag, i.e. starts with the fourteen
characters `-DKOKKOS_ARCH=`. -/
def isArchFlag (f : String) : Bool :=
  f.data.take 14 == "-DKOKKOS_ARCH=".data

/-- The boolean variants that emit a flag in `cmake_args`, paired with
their flags, in output order.  Every declared boolean variant appears
except `rdc`, which `cmake_args` never reads. -/
def bool_flag_table : List (String × String) :=
  [("serial", "-DKOKKOS_ENABLE_SERIAL=ON"),
   ("openmp", "-DKOKKOS_ENABLE_OPENMP=ON"),
   ("qthreads", "-DKOKKOS_ENABLE_QTHREADS=ON"),
   ("pthreads", "-DKOKKOS_ENABLE_PTHREAD=ON"),
   ("cuda", "-DKOKKOS_ENABLE_CUDA=ON"),
   ("pic", "-DBUILD_SHARED_LIBS=ON"),
   ("debug", "-DKOKKOS_ENABLE_DEBUG=ON"),
   ("force_uvm", "-DKOKKOS_ENABLE_CUDA_UVM=ON"),
   ("use_ldg", "-DKOKKOS_ENABLE_CUDA_LDG_INTRINSIC=ON"),
   ("enable_lambda", "-DKOKKOS_ENABLE_CUDA_LAMBDA=ON"),
   ("aggressive_vectorization", "-DKOKKOS_ENABLE_AGGRESSIVE_VECTORIZATION=ON"),
   ("disable_profiling", "-DKOKKOS_ENABLE_PROFILING=OFF"),
   ("disable_dualview_modify_check", "-DKOKKOS_ENABLE_DEBUG_DUALVIEW_MODIFY_CHECK=OFF"),
   ("enable_profile_load_print", "-DKOKKOS_ENABLE_PROFILING_LOAD_PRINT=OFF"),
   ("compiler_warnings", "-DKOKKOS_ENABLE_COMPILER_WARNINGS=ON"),
   ("disable_deprecated_code", "-DKOKKOS_ENABLE_DEPRECATED_CODE=OFF"),
   ("enable_eti", "-DKOKKOS_ENABLE_EXPLICIT_INSTANTIATION=ON")]

/-- The boolean-variant flags appended before the architecture flag. -/
def flags_before_arch : List String :=
  ["-DKOKKOS_ENABLE_SERIAL=ON", "-DKOKKOS_ENABLE_OPENMP=ON",
   "-DKOKKOS_ENABLE_QTHREADS=ON", "-DKOKKOS_ENABLE_PTHREAD=ON",
   "-DKOKKOS_ENABLE_CUDA=ON", "-DBUILD_SHARED_LIBS=ON",
   "-DKOKKOS_ENABLE_DEBUG=ON"]

/-- The boolean-variant flags appended after the architecture flag. -/
def flags_after_arch : List String :=
  ["-DKOKKOS_ENABLE_CUDA_UVM=ON", "-DKOKKOS_ENABLE_CUDA_LDG_INTRINSIC=ON",
   "-DKOKKOS_ENABLE_CUDA_LAMBDA=ON",
   "-DKOKKOS_ENABLE_AGGRESSIVE_VECTORIZATION=ON",
   "-DKOKKOS_ENABLE_PROFILING=OFF",
   "-DKOKKOS_ENABLE_DEBUG_DUALVIEW_MODIFY_CHECK=OFF",
   "-DKOKKOS_ENABLE_PROFILING_LOAD_PRINT=OFF",
   "-DKOKKOS_ENABLE_COMPILER_WARNINGS=ON",
   "-DKOKKOS_ENABLE_DEPRECATED_CODE=OFF",
   "-DKOKKOS_ENABLE_EXPLICIT_INSTANTIATION=ON"]

/-- Every flag `cmake_args` can possibly emit, in output order, for a
given joined architecture string `j`. -/
def all_flags (j : String) : List String :=
  flags_before_arch ++ ("-DKOKKOS_ARCH=" ++ j) :: flags_after_arch

/-- The input of the C1 counterexample: only `cuda` and `rdc` enabled,
every other variant at a non-default only where needed; it is
pre-validated at version `2.8.00`. -/
def rdc_spec : Spec :=
  { default_spec with serial := false, cuda := true, rdc := true }

/-- Both architectures selected: `host_arch=SKX`, `gpu_arch=Pascal60`,
with the CUDA backend enabled. -/
def skx_pascal_spec : Spec :=
  { default_spec with cuda := true, host_arch := "SKX", gpu_arch := "Pascal60" }

/-- Only the host architecture selected: `host_arch=HSW`. -/
def hsw_spec : Spec :=
  { default_spec with host_arch := "HSW" }

/-- Only the GPU architecture selected: `gpu_arch=Volta70`, with the
CUDA backend enabled. -/
def volta_spec : Spec :=
  { default_spec with cuda := true, gpu_arch := "Volta70" }

/-- A selection enabling the three `=OFF`-emitting Kokkos options. -/
def off_flags_spec : Spec :=
  { default_spec with
    enable_profile_load_print := true,
    disable_profiling := true,
    disable_deprecated_code := true }

/-! ### Helper lemmas about conditional singleton lists -/

theorem count_ite_singleton (c : Prop) [Decidable c] (a f : String) :
    List.count f (if c then [a] else []) =
      if c then (if a = f then 1 else 0) else 0 := by
  split <;> simp [List.count_cons, List.count_nil, beq_iff_eq]

theorem filter_ite_singleton (p : String → Bool) (a : String) (c : Prop)
    [Decidable c] :
    List.filter p (if c then [a] else []) =
      if c then (if p a then [a] else []) else [] := by
  split
  · simp only [List.filter]
    cases h : p a <;> simp
  · simp [List.filter]

theorem sublist_ite_cons (c : Prop) [Decidable c] (a : String)
    (l₁ l₂ : List String) (h : List.Sublist l₁ l₂) :
    List.Sublist ((if c then [a] else []) ++ l₁) (a :: l₂) := by
  split
  · exact List.Sublist.cons₂ a h
  · exact List.Sublist.cons a h

theorem sublist_ite_cons_rev (c : Prop) [Decidable c] (a : String)
    (l₁ l₂ : List String) (h : List.Sublist l₁ l₂) :
    List.Sublist ((if c then [] else [a]) ++ l₁) (a :: l₂) := by
  split
  · exact List.Sublist.cons a h
  · exact List.Sublist.cons₂ a h

/-! ### Helper lemmas about the architecture flag -/

theorem isArchFlag_append (j : String) :
    isArchFlag ("-DKOKKOS_ARCH=" ++ j) = true := by
  have hl : ("-DKOKKOS_ARCH=" : String).data.length = 14 := by decide
  simp only [isArchFlag, String.data_append, beq_iff_eq]
  rw [← hl, List.take_left]

theorem archFlag_ne (j f : String) (h : isArchFlag f = false) :
    "-DKOKKOS_ARCH=" ++ j ≠ f := by
  intro he
  rw [← he, isArchFlag_append j] at h
  simp at h

theorem count_arch_component (s : Spec) (f : String)
    (hf : isArchFlag f = false) :
    List.count f
      (if (arch_args s).isEmpty then []
       else ["-DKOKKOS_ARCH=" ++ String.intercalate "," (arch_args s)]) = 0 := by
  split
  · simp
  · simp [List.count_cons, List.count_nil, archFlag_ne _ _ hf]


/-! ### Structural lemmas about `cmake_args` -/

theorem cmake_args_sublist (s : Spec) :
    List.Sublist (cmake_args s)
      (all_flags (String.intercalate "," (arch_args s))) := by
  show List.Sublist (cmake_args s)
    ("-DKOKKOS_ENABLE_SERIAL=ON" :: "-DKOKKOS_ENABLE_OPENMP=ON" ::
     "-DKOKKOS_ENABLE_QTHREADS=ON" :: "-DKOKKOS_ENABLE_PTHREAD=ON" ::
     "-DKOKKOS_ENABLE_CUDA=ON" :: "-DBUILD_SHARED_LIBS=ON" ::
     "-DKOKKOS_ENABLE_DEBUG=ON" ::
     ("-DKOKKOS_ARCH=" ++ String.intercalate "," (arch_args s)) ::
     "-DKOKKOS_ENABLE_CUDA_UVM=ON" :: "-DKOKKOS_ENABLE_CUDA_LDG_INTRINSIC=ON" ::
     "-DKOKKOS_ENABLE_CUDA_LAMBDA=ON" ::
     "-DKOKKOS_ENABLE_AGGRESSIVE_VECTORIZATION=ON" ::
     "-DKOKKOS_ENABLE_PROFILING=OFF" ::
     "-DKOKKOS_ENABLE_DEBUG_DUALVIEW_MODIFY_CHECK=OFF" ::
     "-DKOKKOS_ENABLE_PROFILING_LOAD_PRINT=OFF" ::
     "-DKOKKOS_ENABLE_COMPILER_WARNINGS=ON" ::
     "-DKOKKOS_ENABLE_DEPRECATED_CODE=OFF" ::
     ["-DKOKKOS_ENABLE_EXPLICIT_INSTANTIATION=ON"])
  unfold cmake_args
  simp only [List.append_assoc]
  apply sublist_ite_cons
  apply sublist_ite_cons
  apply sublist_ite_cons
  apply sublist_ite_cons
  apply sublist_ite_cons
  apply sublist_ite_cons
  apply sublist_ite_cons
  apply sublist_ite_cons_rev
  apply sublist_ite_cons
  apply sublist_ite_cons
  apply sublist_ite_cons
  apply sublist_ite_cons
  apply sublist_ite_cons
  apply sublist_ite_cons
  apply sublist_ite_cons
  apply sublist_ite_cons
  apply sublist_ite_cons
  rw [← List.append_nil (if _ = true then ["-DKOKKOS_ENABLE_EXPLICIT_INSTANTIATION=ON"] else [])]
  apply sublist_ite_cons
  exact List.Sublist.refl _

theorem all_flags_nodup (j : String) : (all_flags j).Nodup := by
  have harch : ∀ f ∈ flags_before_arch ++ flags_after_arch,
      "-DKOKKOS_ARCH=" ++ j ≠ f := by
    intro f hf
    fin_cases hf <;> exact archFlag_ne _ _ (by decide)
  rw [all_flags, List.nodup_middle, List.nodup_cons]
  exact ⟨fun hmem => harch _ hmem rfl, by decide⟩

theorem cmake_args_nodup (s : Spec) : (cmake_args s).Nodup :=
  (cmake_args_sublist s).nodup (all_flags_nodup _)

theorem filter_ite_singleton_false (p : String → Bool) (a : String)
    (c : Prop) [Decidable c] (h : p a = false) :
    List.filter p (if c then [a] else []) = [] := by
  rw [filter_ite_singleton]
  simp [h]

theorem filter_arch_self (s : Spec) :
    List.filter isArchFlag
      (if (arch_args s).isEmpty then []
       else ["-DKOKKOS_ARCH=" ++ String.intercalate "," (arch_args s)]) =
      (if (arch_args s).isEmpty then []
       else ["-DKOKKOS_ARCH=" ++ String.intercalate "," (arch_args s)]) := by
  split
  · rfl
  · simp [List.filter, isArchFlag_append]

/-- Among the flags `cmake_args` produces, the architecture-shaped ones
are exactly the single combined flag, present exactly when `arch_args`
is nonempty. -/
theorem filter_arch_cmake_args (s : Spec) :
    (cmake_args s).filter isArchFlag =
      (if (arch_args s).isEmpty then []
       else ["-DKOKKOS_ARCH=" ++ String.intercalate "," (arch_args s)]) := by
  have h1 : isArchFlag "-DKOKKOS_ENABLE_SERIAL=ON" = false := by decide
  have h2 : isArchFlag "-DKOKKOS_ENABLE_OPENMP=ON" = false := by decide
  have h3 : isArchFlag "-DKOKKOS_ENABLE_QTHREADS=ON" = false := by decide
  have h4 : isArchFlag "-DKOKKOS_ENABLE_PTHREAD=ON" = false := by decide
  have h5 : isArchFlag "-DKOKKOS_ENABLE_CUDA=ON" = false := by decide
  have h6 : isArchFlag "-DBUILD_SHARED_LIBS=ON" = false := by decide
  have h7 : isArchFlag "-DKOKKOS_ENABLE_DEBUG=ON" = false := by decide
  have h8 : isArchFlag "-DKOKKOS_ENABLE_CUDA_UVM=ON" = false := by decide
  have h9 : isArchFlag "-DKOKKOS_ENABLE_CUDA_LDG_INTRINSIC=ON" = false := by decide
  have h10 : isArchFlag "-DKOKKOS_ENABLE_CUDA_LAMBDA=ON" = false := by decide
  have h11 : isArchFlag "-DKOKKOS_ENABLE_AGGRESSIVE_VECTORIZATION=ON" = false := by decide
  have h12 : isArchFlag "-DKOKKOS_ENABLE_PROFILING=OFF" = false := by decide
  have h13 : isArchFlag "-DKOKKOS_ENABLE_DEBUG_DUALVIEW_MODIFY_CHECK=OFF" = false := by decide
  have h14 : isArchFlag "-DKOKKOS_ENABLE_PROFILING_LOAD_PRINT=OFF" = false := by decide
  have h15 : isArchFlag "-DKOKKOS_ENABLE_COMPILER_WARNINGS=ON" = false := by decide
  have h16 : isArchFlag "-DKOKKOS_ENABLE_DEPRECATED_CODE=OFF" = false := by decide
  have h17 : isArchFlag "-DKOKKOS_ENABLE_EXPLICIT_INSTANTIATION=ON" = false := by decide
  unfold cmake_args
  simp only [List.filter_append,
    filter_ite_singleton_false _ _ _ h1, filter_ite_singleton_false _ _ _ h2,
    filter_ite_singleton_false _ _ _ h3, filter_ite_singleton_false _ _ _ h4,
    filter_ite_singleton_false _ _ _ h5, filter_ite_singleton_false _ _ _ h6,
    filter_ite_singleton_false _ _ _ h7, filter_ite_singleton_false _ _ _ h8,
    filter_ite_singleton_false _ _ _ h9, filter_ite_singleton_false _ _ _ h10,
    filter_ite_singleton_false _ _ _ h11, filter_ite_singleton_false _ _ _ h12,
    filter_ite_singleton_false _ _ _ h13, filter_ite_singleton_false _ _ _ h14,
    filter_ite_singleton_false _ _ _ h15, filter_ite_singleton_false _ _ _ h16,
    filter_ite_singleton_false _ _ _ h17, filter_arch_self,
    List.nil_append, List.append_nil]

/-- Each boolean variant of the flag table contributes its flag to the
output exactly when it is enabled, and then exactly once. -/
theorem count_cmake_args_table (s : Spec) (nf : String × String)
    (h : nf ∈ bool_flag_table) :
    (cmake_args s).count nf.2 = if boolVariantVal s nf.1 = true then 1 else 0 := by
  fin_cases h
  · simp only [cmake_args, List.count_append, count_ite_singleton,
      count_arch_component s "-DKOKKOS_ENABLE_SERIAL=ON" (by decide), boolVariantVal]
    simp
  · simp only [cmake_args, List.count_append, count_ite_singleton,
      count_arch_component s "-DKOKKOS_ENABLE_OPENMP=ON" (by decide), boolVariantVal]
    simp
  · simp only [cmake_args, List.count_append, count_ite_singleton,
      count_arch_component s "-DKOKKOS_ENABLE_QTHREADS=ON" (by decide), boolVariantVal]
    simp
  · simp only [cmake_args, List.count_append, count_ite_singleton,
      count_arch_component s "-DKOKKOS_ENABLE_PTHREAD=ON" (by decide), boolVariantVal]
    simp
  · simp only [cmake_args, List.count_append, count_ite_singleton,
      count_arch_component s "-DKOKKOS_ENABLE_CUDA=ON" (by decide), boolVariantVal]
    simp
  · simp only [cmake_args, List.count_append, count_ite_singleton,
      count_arch_component s "-DBUILD_SHARED_LIBS=ON" (by decide), boolVariantVal]
    simp
  · simp only [cmake_args, List.count_append, count_ite_singleton,
      count_arch_component s "-DKOKKOS_ENABLE_DEBUG=ON" (by decide), boolVariantVal]
    simp
  · simp only [cmake_args, List.count_append, count_ite_singleton,
      count_arch_component s "-DKOKKOS_ENABLE_CUDA_UVM=ON" (by decide), boolVariantVal]
    simp
  · simp only [cmake_args, List.count_append, count_ite_singleton,
      count_arch_component s "-DKOKKOS_ENABLE_CUDA_LDG_INTRINSIC=ON" (by decide), boolVariantVal]
    simp
  · simp only [cmake_args, List.count_append, count_ite_singleton,
      count_arch_component s "-DKOKKOS_ENABLE_CUDA_LAMBDA=ON" (by decide), boolVariantVal]
    simp
  · simp only [cmake_args, List.count_append, count_ite_singleton,
      count_arch_component s "-DKOKKOS_ENABLE_AGGRESSIVE_VECTORIZATION=ON" (by decide), boolVariantVal]
    simp
  · simp only [cmake_args, List.count_append, count_ite_singleton,
      count_arch_component s "-DKOKKOS_ENABLE_PROFILING=OFF" (by decide), boolVariantVal]
    simp
  · simp only [cmake_args, List.count_append, count_ite_singleton,
      count_arch_component s "-DKOKKOS_ENABLE_DEBUG_DUALVIEW_MODIFY_CHECK=OFF" (by decide), boolVariantVal]
    simp
  · simp only [cmake_args, List.count_append, count_ite_singleton,
      count_arch_component s "-DKOKKOS_ENABLE_PROFILING_LOAD_PRINT=OFF" (by decide), boolVariantVal]
    simp
  · simp only [cmake_args, List.count_append, count_ite_singleton,
      count_arch_component s "-DKOKKOS_ENABLE_COMPILER_WARNINGS=ON" (by decide), boolVariantVal]
    simp
  · simp only [cmake_args, List.count_append, count_ite_singleton,
      count_arch_component s "-DKOKKOS_ENABLE_DEPRECATED_CODE=OFF" (by decide), boolVariantVal]
    simp
  · simp only [cmake_args, List.count_append, count_ite_singleton,
      count_arch_component s "-DKOKKOS_ENABLE_EXPLICIT_INSTANTIATION=ON" (by decide), boolVariantVal]
    simp

theorem intercalate_single (a : String) : String.intercalate "," [a] = a := rfl

theorem intercalate_pair (a b : String) :
    String.intercalate "," [a, b] = a ++ "," ++ b := rfl

/-! ### Claim theorems -/

/-- C1 (counterexample): on the pre-validated selection that enables
`cuda` and `rdc` and nothing else, `cmake_args` emits only the CUDA
backend flag — the enabled boolean variant `rdc`, although declared,
contributes no flag, so it is not the case that every declared boolean
variant has a corresponding flag when enabled. -/
theorem kokkos_rdc_no_flag_counterexample :
    "rdc" ∈ declared_bool_variants ∧ rdc_spec.rdc = true ∧
      pre_validated [2, 8, 0] rdc_spec = true ∧
      cmake_args rdc_spec = ["-DKOKKOS_ENABLE_CUDA=ON"] := by
  decide

/-- C1 (amended): for every pre-validated variant selection, each
enabled boolean variant other than `rdc` contributes exactly one
corresponding flag, no flag appears for a disabled boolean variant, no
flag is duplicated, and the output is independent of `rdc`. -/
theorem kokkos_bool_flag_translation (ver : Version) (s : Spec)
    (hpre : pre_validated ver s = true) :
    (∀ nf ∈ bool_flag_table,
        (cmake_args s).count nf.2 = if boolVariantVal s nf.1 = true then 1 else 0)
      ∧ (cmake_args s).Nodup
      ∧ cmake_args { s with rdc := true } = cmake_args { s with rdc := false } :=
  ⟨fun nf hnf => count_cmake_args_table s nf hnf, cmake_args_nodup s, rfl⟩

/-- C1 (witness): the amended theorem applied to the default selection
at version `2.8.00`. -/
theorem kokkos_bool_flag_translation_witness :
    (cmake_args default_spec).count "-DKOKKOS_ENABLE_SERIAL=ON" =
        (if boolVariantVal default_spec "serial" = true then 1 else 0)
      ∧ (cmake_args default_spec).Nodup :=
  ⟨(kokkos_bool_flag_translation [2, 8, 0] default_spec (by decide)).1
     ("serial", "-DKOKKOS_ENABLE_SERIAL=ON") (by decide),
   (kokkos_bool_flag_translation [2, 8, 0] default_spec (by decide)).2.1⟩

/-- C2: the declared default `none` of each of the two enum variants
is not a member of its declared `values=` tuple, so the default
effective value lies outside the declared closed legal set — the recipe
contradicts the documented invariant (and its own `cmake_args`, which
treats `none` as the expected no-selection value). -/
theorem kokkos_enum_default_not_declared :
    host_arch_default = "none" ∧ host_arch_default ∉ host_arch_values
      ∧ gpu_arch_default = "none" ∧ gpu_arch_default ∉ gpu_values := by
  decide

/-- C3: whenever both `host_arch` and `gpu_arch` differ from `none`,
the architecture-shaped flags of the output are exactly the one combined
flag joining the two values with a comma, host architecture first. -/
theorem kokkos_combined_arch_flag (s : Spec)
    (hh : s.host_arch ≠ "none") (hg : s.gpu_arch ≠ "none") :
    (cmake_args s).filter isArchFlag =
      ["-DKOKKOS_ARCH=" ++ s.host_arch ++ "," ++ s.gpu_arch] := by
  have ha : arch_args s = [s.host_arch, s.gpu_arch] := by
    simp [arch_args, hh, hg]
  rw [filter_arch_cmake_args, ha]
  simp [intercalate_pair, String.append_assoc]

/-- C3 (witness): `host_arch=SKX`, `gpu_arch=Pascal60` with CUDA enabled
yields the single flag `-DKOKKOS_ARCH=SKX,Pascal60`. -/
theorem kokkos_combined_arch_flag_witness :
    (cmake_args skx_pascal_spec).filter isArchFlag =
      ["-DKOKKOS_ARCH=SKX,Pascal60"] := by
  simpa using kokkos_combined_arch_flag skx_pascal_spec (by decide) (by decide)

/-- C4: with exactly one architecture selected the flags of
architecture shape in the output are exactly one flag naming that architecture
alone, and with neither selected no architecture-shaped flag appears at
all. -/
theorem kokkos_single_arch_flag (s : Spec) :
    (s.host_arch ≠ "none" → s.gpu_arch = "none" →
        (cmake_args s).filter isArchFlag = ["-DKOKKOS_ARCH=" ++ s.host_arch])
      ∧ (s.host_arch = "none" → s.gpu_arch ≠ "none" →
        (cmake_args s).filter isArchFlag = ["-DKOKKOS_ARCH=" ++ s.gpu_arch])
      ∧ (s.host_arch = "none" → s.gpu_arch = "none" →
        (cmake_args s).filter isArchFlag = []) := by
  refine ⟨fun hh hg => ?_, fun hh hg => ?_, fun hh hg => ?_⟩
  · have ha : arch_args s = [s.host_arch] := by simp [arch_args, hh, hg]
    rw [filter_arch_cmake_args, ha]
    simp [intercalate_single]
  · have ha : arch_args s = [s.gpu_arch] := by simp [arch_args, hh, hg]
    rw [filter_arch_cmake_args, ha]
    simp [intercalate_single]
  · have ha : arch_args s = [] := by simp [arch_args, hh, hg]
    rw [filter_arch_cmake_args, ha]
    simp

/-- C4 (witness): the single-architecture and no-architecture cases at
`host_arch=HSW`, `gpu_arch=Volta70` (with CUDA), and the defaults. -/
theorem kokkos_single_arch_flag_witness :
    (cmake_args hsw_spec).filter isArchFlag = ["-DKOKKOS_ARCH=HSW"]
      ∧ (cmake_args volta_spec).filter isArchFlag = ["-DKOKKOS_ARCH=Volta70"]
      ∧ (cmake_args default_spec).filter isArchFlag = [] := by
  refine ⟨?_, ?_, ?_⟩
  · simpa using (kokkos_single_arch_flag hsw_spec).1 (by decide) (by decide)
  · simpa using (kokkos_single_arch_flag volta_spec).2.1 (by decide) (by decide)
  · simpa using (kokkos_single_arch_flag default_spec).2.2 (by decide) (by decide)

/-- C5: over any variant dictionary that assigns every declared variant
a value of its declared shape — including assignments that violate the
declared conflict rules — `cmake_args` returns a flag list and never an
error. -/
theorem cmake_argsE_total (m : VarMap) (h : assignsDeclared m = true) :
    ∃ l, cmake_argsE m = Except.ok l := by
  unfold assignsDeclared at h
  rw [Bool.and_eq_true] at h
  obtain ⟨-, henum⟩ := h
  simp only [declared_enum_variants, List.all_cons, List.all_nil,
    Bool.and_eq_true, Bool.and_true] at henum
  obtain ⟨hh, hg⟩ := henum
  cases hlh : List.lookup "host_arch" m with
  | none => rw [hlh] at hh; simp at hh
  | some v =>
    cases v with
    | bool b => rw [hlh] at hh; simp at hh
    | str hv =>
      cases hlg : List.lookup "gpu_arch" m with
      | none => rw [hlg] at hg; simp at hg
      | some w =>
        cases w with
        | bool b => rw [hlg] at hg; simp at hg
        | str gv =>
          refine ⟨cmake_args (specOfMap m hv gv), ?_⟩
          unfold cmake_argsE getStrVariant
          rw [hlh, hlg]
          rfl

/-- C5 (witness): the totality theorem applied to the all-defaults
variant dictionary. -/
theorem cmake_argsE_total_witness :
    assignsDeclared default_var_map = true
      ∧ ∃ l, cmake_argsE default_var_map = Except.ok l :=
  ⟨by decide, cmake_argsE_total default_var_map (by decide)⟩

/-- C6: there are eleven declared GPU architecture values and, for each,
the recipe declares a conflict forbidding it when `cuda` is disabled,
carrying the diagnostic message about requiring the CUDA backend. -/
theorem kokkos_gpu_conflict_rules :
    gpu_values.length = 11
      ∧ ∀ p ∈ gpu_values,
          (⟨CSpec.gpuArchIs p, CWhen.noCuda,
            some "Must specify CUDA backend to use a GPU architecture."⟩ :
              Conflict) ∈ kokkos_conflicts := by
  refine ⟨by decide, ?_⟩
  intro p hp
  fin_cases hp <;> decide

/-- C6 (witness): the conflict rule for `gpu_arch=Pascal60`. -/
theorem kokkos_gpu_conflict_rules_witness :
    (⟨CSpec.gpuArchIs "Pascal60", CWhen.noCuda,
      some "Must specify CUDA backend to use a GPU architecture."⟩ :
        Conflict) ∈ kokkos_conflicts :=
  kokkos_gpu_conflict_rules.2 "Pascal60" (by decide)

/-- C7: the declared conflict set is satisfiable — version `2.8.00`
together with the declared default variant values violates none of the
declared conflict rules. -/
theorem kokkos_conflicts_satisfiable :
    [2, 8, 0] ∈ kokkos_versions
      ∧ kokkos_conflicts.all (fun c => !violates [2, 8, 0] default_spec c) = true := by
  decide

/-- C8: the py-pycparser recipe is pure static declaration: a name, a
source location, two checksummed versions, and exactly one dependency
edge — a build-type dependency on py-setuptools. -/
theorem py_pycparser_declarative :
    py_pycparser.name = "py-pycparser"
      ∧ py_pycparser.url =
          "https://pypi.io/packages/source/p/pycparser/pycparser-2.17.tar.gz"
      ∧ py_pycparser.versions =
          [("2.17", "ca98dcb50bc1276f230118f6af5a40c7"),
           ("2.13", "e4fe1a2d341b22e25da0d22f034ef32f")]
      ∧ py_pycparser.dependencies = [⟨"py-setuptools", ["build"]⟩]
      ∧ py_pycparser.dependencies.length = 1 := by
  decide

/-- C9: the output of `cmake_args` is unchanged when `rdc` is toggled —
no flag is ever emitted for `rdc` — although `rdc` is one of the four
declared CUDA option variants and each of the other three contributes
its flag when enabled. -/
theorem kokkos_rdc_ignored (s : Spec) :
    cmake_args { s with rdc := true } = cmake_args { s with rdc := false }
      ∧ "rdc" ∈ cuda_options ∧ cuda_options.length = 4
      ∧ "-DKOKKOS_ENABLE_CUDA_UVM=ON" ∈ cmake_args { s with force_uvm := true }
      ∧ "-DKOKKOS_ENABLE_CUDA_LDG_INTRINSIC=ON" ∈ cmake_args { s with use_ldg := true }
      ∧ "-DKOKKOS_ENABLE_CUDA_LAMBDA=ON" ∈ cmake_args { s with enable_lambda := true } := by
  refine ⟨rfl, by decide, by decide, ?_, ?_, ?_⟩ <;>
    simp [cmake_args, List.mem_append]

/-- C10: enabling `enable_profile_load_print` appends the flag
`-DKOKKOS_ENABLE_PROFILING_LOAD_PRINT=OFF`, whose value is `OFF` despite
the name of the variant saying `enable`, just as the enabled `disable_*` variants
append `=OFF` flags. -/
theorem kokkos_profile_load_print_off (s : Spec) :
    (s.enable_profile_load_print = true →
        "-DKOKKOS_ENABLE_PROFILING_LOAD_PRINT=OFF" ∈ cmake_args s)
      ∧ (s.disable_profiling = true →
        "-DKOKKOS_ENABLE_PROFILING=OFF" ∈ cmake_args s)
      ∧ (s.disable_deprecated_code = true →
        "-DKOKKOS_ENABLE_DEPRECATED_CODE=OFF" ∈ cmake_args s) := by
  refine ⟨fun h => ?_, fun h => ?_, fun h => ?_⟩ <;>
    simp [cmake_args, List.mem_append, h]

/-- C10 (witness): the three `=OFF` flags on a selection enabling the
three corresponding variants. -/
theorem kokkos_profile_load_print_off_witness :
    "-DKOKKOS_ENABLE_PROFILING_LOAD_PRINT=OFF" ∈ cmake_args off_flags_spec
      ∧ "-DKOKKOS_ENABLE_PROFILING=OFF" ∈ cmake_args off_flags_spec
      ∧ "-DKOKKOS_ENABLE_DEPRECATED_CODE=OFF" ∈ cmake_args off_flags_spec :=
  ⟨(kokkos_profile_load_print_off off_flags_spec).1 rfl,
   (kokkos_profile_load_print_off off_flags_spec).2.1 rfl,
   (kokkos_profile_load_print_off off_flags_spec).2.2 rfl⟩
